import Mathlib

/-!
Shallow embedding of the spirecomm driver (Slay the Spire / Communication Mod
bridge) and verification of its natural-language specification.

The definitions below are translated from the Python sources:
  * `spirecomm/spire/card.py`, `potion.py`, `relic.py`, `power.py`,
    `character.py`, `map.py`, `screen.py`, `game.py`  (data model),
  * `spirecomm/communication/action.py`, `coordinator.py` (protocol layer),
  * `spirecomm/ai/agent.py` (decision engine).

Conventions used throughout:
  * Python `int` is embedded as `Int`; list positions are `Nat`.
  * A Python exception raised by a method is embedded as an `Except.error`
    result.  In every embedded method the source raises before performing any
    mutation, so an `error` result carries the state exactly as it was when
    the exception fired.
  * Python `None` becomes `Option.none`.
-/

namespace Spirecomm

/-! ## Data model: enums (spire/card.py, screen.py, character.py, game.py) -/

inductive CardType where
  | ATTACK | SKILL | POWER | STATUS | CURSE
deriving DecidableEq, Repr

inductive CardRarity where
  | BASIC | COMMON | UNCOMMON | RARE | SPECIAL | CURSE
deriving DecidableEq, Repr

inductive Intent where
  | ATTACK | ATTACK_BUFF | ATTACK_DEBUFF | ATTACK_DEFEND
  | BUFF | DEBUFF | STRONG_DEBUFF | DEBUG | DEFEND | DEFEND_DEBUFF
  | DEFEND_BUFF | ESCAPE | MAGIC | NONE | SLEEP | STUN | UNKNOWN
deriving DecidableEq, Repr

inductive PlayerClass where
  | IRONCLAD | THE_SILENT | DEFECT
deriving DecidableEq, Repr

inductive RoomPhase where
  | COMBAT | EVENT | COMPLETE | INCOMPLETE
deriving DecidableEq, Repr

inductive ScreenType where
  | EVENT | CHEST | SHOP_ROOM | REST | CARD_REWARD | COMBAT_REWARD
  | MAP | BOSS_REWARD | SHOP_SCREEN | GRID | HAND_SELECT | GAME_OVER
  | COMPLETE | NONE
deriving DecidableEq, Repr

inductive ChestType where
  | SMALL | MEDIUM | LARGE | BOSS | UNKNOWN
deriving DecidableEq, Repr

inductive RewardType where
  | CARD | GOLD | RELIC | POTION | STOLEN_GOLD | EMERALD_KEY | SAPPHIRE_KEY
deriving DecidableEq, Repr

inductive RestOption where
  | DIG | LIFT | RECALL | REST | SMITH | TOKE
deriving DecidableEq, Repr

/-- The `.name` attribute of a `RestOption` enum member (used by
`RestAction.__init__`, which passes `rest_option.name` to `ChooseAction`). -/
def RestOption.enumName : RestOption → String
  | .DIG => "DIG"
  | .LIFT => "LIFT"
  | .RECALL => "RECALL"
  | .REST => "REST"
  | .SMITH => "SMITH"
  | .TOKE => "TOKE"

/-! ## Data model: entities -/

/-- `Card` (spire/card.py).  Field names follow `Card.__init__`. -/
structure Card where
  card_id : String
  name : String
  type : CardType
  rarity : CardRarity
  upgrades : Int := 0
  has_target : Bool := false
  cost : Int := 0
  uuid : String := ""
  misc : Int := 0
  price : Int := 0
  is_playable : Bool := false
  exhausts : Bool := false
deriving DecidableEq, Repr

/-- `Card.__eq__` (card.py line 53-54): two cards compare equal iff their
`uuid` fields agree.  This is the equality used by `list.index` and `in`. -/
def Card.pyEq (a b : Card) : Bool := a.uuid == b.uuid

/-- `Potion` (spire/potion.py). -/
structure Potion where
  potion_id : String
  name : String
  can_use : Bool := false
  can_discard : Bool := false
  requires_target : Bool := false
  price : Int := 0
deriving DecidableEq, Repr

/-- `Potion.__eq__` (potion.py line 11-12): equality on `potion_id` only. -/
def Potion.pyEq (a b : Potion) : Bool := a.potion_id == b.potion_id

/-- `Relic` (spire/relic.py).  The class defines no `__eq__`, so Python
compares relics by object identity; structural equality is used here and
coincides with identity on the inputs exercised below. -/
structure Relic where
  relic_id : String
  name : String
  counter : Int := 0
  price : Int := 0
deriving DecidableEq, Repr

/-- `Power` (spire/power.py). -/
structure Power where
  power_id : String
  power_name : String
  amount : Int
  damage : Int := 0
  misc : Int := 0
  just_applied : Bool := false
  card : Option Card := none
deriving DecidableEq, Repr

/-- `Monster` (spire/character.py).  `monster_index` is initialised to 0 by
`Monster.__init__` and overwritten by `Game.from_json` during combat. -/
structure Monster where
  name : String
  monster_id : String
  max_hp : Int
  current_hp : Int
  block : Int
  intent : Intent
  half_dead : Bool
  is_gone : Bool
  move_id : Int := -1
  last_move_id : Option Int := none
  second_last_move_id : Option Int := none
  move_base_damage : Int := 0
  move_adjusted_damage : Option Int := some 0
  move_hits : Int := 0
  powers : List Power := []
  monster_index : Nat := 0
deriving DecidableEq, Repr

/-- `Orb` (spire/character.py). -/
structure Orb where
  name : String
  orb_id : String
  evoke_amount : Int
  passive_amount : Int
deriving DecidableEq, Repr

/-- `Player` (spire/character.py). -/
structure Player where
  max_hp : Int
  current_hp : Int
  block : Int := 0
  energy : Int := 0
  powers : List Power := []
  orbs : List Orb := []
deriving DecidableEq, Repr

/-- `Node` of the dungeon map (spire/map.py).  In the source, `children`
holds references to the already-wired child `Node` objects of the next
layer; the nested inductive mirrors that wiring.  Map layers (`y`) are
non-negative, so `y` is a `Nat` here; columns (`x`) stay `Int` because the
route planner stores the sentinel parent `-1` alongside columns. -/
inductive MapNode where
  | mk (x : Int) (y : Nat) (symbol : String) (children : List MapNode)

def MapNode.x : MapNode → Int
  | .mk x _ _ _ => x

def MapNode.y : MapNode → Nat
  | .mk _ y _ _ => y

def MapNode.symbol : MapNode → String
  | .mk _ _ s _ => s

def MapNode.children : MapNode → List MapNode
  | .mk _ _ _ cs => cs

/-- `Map` (spire/map.py): nodes keyed by `(y, x)`.  `Map.from_json` inserts
nodes in the order of the JSON node list, and Python dict iteration follows
insertion order, so keeping the flat insertion-ordered node list reproduces
the source's `nodes[y].values()` iteration as a filter on `y`. -/
structure SpireMap where
  nodes : List MapNode

/-- `CombatReward` (spire/screen.py lines 165-176). -/
structure CombatReward where
  reward_type : RewardType
  gold : Int := 0
  relic : Option Relic := none
  potion : Option Potion := none
  link : Option Relic := none
deriving DecidableEq, Repr

/-- `EventOption` (spire/screen.py). -/
structure EventOption where
  text : String
  label : String
  disabled : Bool := false
  choice_index : Option Nat := none
deriving DecidableEq, Repr

/-- The screen tagged union (spire/screen.py): one variant per `Screen`
subclass, carrying the fields set by that subclass's `__init__`. -/
inductive Screen where
  | base
  | chest (chest_type : ChestType) (chest_open : Bool)
  | event (event_name : String) (event_id : String) (body_text : String)
      (options : List EventOption)
  | shopRoom
  | rest (has_rested : Bool) (rest_options : List RestOption)
  | cardReward (cards : List Card) (can_bowl : Bool) (can_skip : Bool)
  | combatReward (rewards : List CombatReward)
  | map (current_node : Option MapNode) (next_nodes : List MapNode)
      (boss_available : Bool)
  | bossReward (relics : List Relic)
  | shop (cards : List Card) (relics : List Relic) (potions : List Potion)
      (purge_available : Bool) (purge_cost : Int)
  | grid (cards : List Card) (selected_cards : List Card) (num_cards : Int)
      (any_number : Bool) (confirm_up : Bool) (for_upgrade : Bool)
      (for_transform : Bool) (for_purge : Bool)
  | handSelect (cards : List Card) (selected_cards : List Card)
      (num_cards : Int) (can_pick_zero : Bool)
  | gameOver (score : Int) (victory : Bool)
  | complete

/-- `Game` (spire/game.py).  Fields and defaults follow `Game.__init__`. -/
structure Game where
  current_action : Option String := none
  current_hp : Int := 0
  max_hp : Int := 0
  floor : Int := 0
  act : Int := 0
  gold : Int := 0
  seed : Int := 0
  character : Option PlayerClass := none
  ascension_level : Option Int := none
  relics : List Relic := []
  deck : List Card := []
  potions : List Potion := []
  map : SpireMap := ⟨[]⟩
  act_boss : Option String := none
  in_combat : Bool := false
  player : Option Player := none
  monsters : List Monster := []
  draw_pile : List Card := []
  discard_pile : List Card := []
  exhaust_pile : List Card := []
  hand : List Card := []
  limbo : List Card := []
  card_in_play : Option Card := none
  turn : Int := 0
  cards_discarded_this_turn : Int := 0
  screen : Option Screen := none
  screen_up : Bool := false
  screen_type : Option ScreenType := none
  room_phase : Option RoomPhase := none
  room_type : Option String := none
  choice_list : List String := []
  choice_available : Bool := false
  end_available : Bool := false
  potion_available : Bool := false
  play_available : Bool := false
  proceed_available : Bool := false
  cancel_available : Bool := false

/-- A fresh `Game()` as produced by `Game.__init__`. -/
def Game.init : Game := {}

/-- `Game.are_potions_full` (game.py lines 130-134): scan the potion list
and report `False` at the first empty slot (`potion_id == "Potion Slot"`),
`True` if the scan finishes. -/
def are_potions_full_list : List Potion → Bool
  | [] => true
  | p :: ps => if p.potion_id == "Potion Slot" then false else are_potions_full_list ps

def Game.are_potions_full (g : Game) : Bool :=
  are_potions_full_list g.potions

/-- `Game.get_real_potions` (game.py lines 136-141): collect, in order, the
potions whose `potion_id` is not `"Potion Slot"`. -/
def get_real_potions_list : List Potion → List Potion
  | [] => []
  | p :: ps =>
    if p.potion_id != "Potion Slot" then p :: get_real_potions_list ps
    else get_real_potions_list ps

def Game.get_real_potions (g : Game) : List Potion :=
  get_real_potions_list g.potions

/-- The monster-index assignment performed by `Game.from_json` while in
combat (game.py lines 105-107): the parsed monster list is enumerated and
the `i`-th monster receives `monster_index = i`. -/
def assign_monster_indices (monsters : List Monster) : List Monster :=
  monsters.enum.map (fun p => { p.2 with monster_index := p.1 })

/-! ## Communication: actions (communication/action.py)

One inductive constructor per `Action` subclass exercised by the verified
properties.  The base class `Action` is `base cmd rgr`; every subclass
passes `requires_game_ready=True` to the base constructor except
`StateAction`, which passes `requires_game_ready=False`. -/

inductive Action where
  | base (command : String) (requires_game_ready : Bool)
  | playCard (card : Option Card) (card_index : Int)
      (target_monster : Option Monster) (target_index : Option Int)
  | endTurn
  | proceed
  | cancel
  | choose (choice_index : Nat) (name : Option String)
  | rest (rest_option : RestOption)
  | combatReward (combat_reward : CombatReward)
  | optionalCardSelectConfirm
  | cardSelect (cards : List Card)
  | stateAction
deriving DecidableEq, Repr

/-- The `command` string set by each class's `__init__`. -/
def Action.command : Action → String
  | .base c _ => c
  | .playCard _ _ _ _ => "play"
  | .endTurn => "end"
  | .proceed => "proceed"
  | .cancel => "cancel"
  | .choose _ _ => "choose"
  | .rest _ => "choose"
  | .combatReward _ => "choose"
  | .optionalCardSelectConfirm => "state"
  | .cardSelect _ => "state"
  | .stateAction => "state"

/-- The `requires_game_ready` flag set by each class's `__init__`:
`True` everywhere except `StateAction` (action.py lines 324-328). -/
def Action.requires_game_ready : Action → Bool
  | .base _ rgr => rgr
  | .stateAction => false
  | _ => true

/-- Coordinator state (coordinator.py `Coordinator.__init__`).  The two
transport threads are external; the output pump is modelled by the list of
lines placed on `output_queue`, in order. -/
structure CoordinatorState where
  output_queue : List String := []
  action_queue : List Action := []
  game_is_ready : Bool := false
  stop_after_run : Bool := false
  in_game : Bool := false
  last_game_state : Option Game := none
  last_error : Option String := none

/-- A fresh coordinator as left by `Coordinator.__init__`. -/
def CoordinatorState.init : CoordinatorState := {}

/-- `Coordinator.send_message` (coordinator.py lines 72-80): put the line on
the output queue and start waiting for a response (`game_is_ready = False`). -/
def send_message (st : CoordinatorState) (message : String) : CoordinatorState :=
  { st with output_queue := st.output_queue ++ [message], game_is_ready := false }

/-- `Coordinator.add_action_to_queue` (coordinator.py lines 82-89). -/
def add_action_to_queue (st : CoordinatorState) (action : Action) : CoordinatorState :=
  { st with action_queue := st.action_queue ++ [action] }

/-- `Action.can_be_executed` (action.py lines 11-21). -/
def Action.can_be_executed (a : Action) (st : CoordinatorState) : Bool :=
  if a.requires_game_ready then st.game_is_ready else true

/-- Python `list.index` / the `in` operator: position of the first element
that compares equal (under the class's `__eq__`) to `a`, if any. -/
def pyIndex (eq : α → α → Bool) : List α → α → Option Nat
  | [], _ => none
  | b :: bs, a => if eq b a then some 0 else (pyIndex eq bs a).map (· + 1)

/-- The index-collection loop of `CardSelectAction.execute` (action.py lines
264-269): for each provided card, find its position in the screen's card
list (equality is `Card.__eq__`, i.e. by `uuid`); a card with no match
raises. -/
def collectIndices (available_cards : List Card) : List Card → Except String (List Nat)
  | [] => .ok []
  | c :: cs =>
    match pyIndex Card.pyEq available_cards c with
    | none => .error ("Card " ++ c.name ++ " is not available in the Hand Select Screen")
    | some i =>
      match collectIndices available_cards cs with
      | .ok is => .ok (i :: is)
      | .error e => .error e

/-- `list.sort(reverse=True)` on the collected indices (action.py line 270):
stable descending insertion sort. -/
def insertDesc (a : Nat) : List Nat → List Nat
  | [] => [a]
  | b :: bs => if b < a then a :: b :: bs else b :: insertDesc a bs

def sortDesc : List Nat → List Nat
  | [] => []
  | a :: as => insertDesc a (sortDesc as)

/-- The common tail of `CardSelectAction.execute` (action.py lines 257-273)
once the screen's fields are in scope: the count checks, the index
collection, the descending sort, and the enqueueing of the choice
descriptors plus the terminal `OptionalCardSelectConfirmAction`.
`grid_fixed_count` is the evaluated condition
`screen_type == ScreenType.GRID and not screen.any_number`. -/
def cardSelectCore (st : CoordinatorState) (cards scards selected_cards : List Card)
    (num_cards : Int) (grid_fixed_count : Bool) :
    Except (String × CoordinatorState) CoordinatorState :=
  let num_selected_cards : Int := selected_cards.length
  let num_remaining_cards : Int := num_cards - num_selected_cards
  if grid_fixed_count && decide ((cards.length : Int) ≠ num_remaining_cards) then
    .error ("Wrong number of cards selected for CardSelectAction", st)
  else if decide ((cards.length : Int) > num_remaining_cards) then
    .error ("Too many cards selected for CardSelectAction", st)
  else
    match collectIndices scards cards with
    | .error e => .error (e, st)
    | .ok chosen_indices =>
      .ok { st with
        action_queue := st.action_queue
          ++ (sortDesc chosen_indices).map (fun i => Action.choose i none)
          ++ [Action.optionalCardSelectConfirm] }

/-- `Action.execute` and its overrides (action.py).  The result is the
coordinator state after the method returns, or `error (msg, st)` when the
method raises with the coordinator in state `st`; in the source every raise
happens before any mutation, so the carried state is the input state. -/
def Action.execute (a : Action) (st : CoordinatorState) :
    Except (String × CoordinatorState) CoordinatorState :=
  match a with
  | .base cmd _ => .ok (send_message st cmd)
  | .endTurn => .ok (send_message st "end")
  | .proceed => .ok (send_message st "proceed")
  | .cancel => .ok (send_message st "cancel")
  | .stateAction => .ok (send_message st "state")
  | .choose choice_index name =>
    match name with
    | some n => .ok (send_message st ("choose " ++ n))
    | none => .ok (send_message st ("choose " ++ toString choice_index))
  | .rest rest_option =>
    -- RestAction is ChooseAction(name=rest_option.name)
    .ok (send_message st ("choose " ++ rest_option.enumName))
  | .playCard card card_index target_monster target_index =>
    -- PlayCardAction.execute (action.py lines 42-53)
    match st.last_game_state with
    | none => .error ("AttributeError: 'NoneType' object has no attribute 'hand'", st)
    | some g =>
      match
        ((match card with
          | some c =>
            match pyIndex Card.pyEq g.hand c with
            | none => .error ("ValueError: card is not in hand", st)
            | some i => .ok (i : Int)
          | none => .ok card_index) :
          Except (String × CoordinatorState) Int) with
      | .error e => .error e
      | .ok ci =>
        if ci == -1 then
          .error ("Specified card for CardAction is not in hand", st)
        else
          let hand_card_index := ci + 1
          let ti :=
            match target_monster with
            | some m => some (m.monster_index : Int)
            | none => target_index
          match ti with
          | none => .ok (send_message st ("play " ++ toString hand_card_index))
          | some t =>
            .ok (send_message st ("play " ++ toString hand_card_index ++ " " ++ toString t))
  | .combatReward combat_reward =>
    -- CombatRewardAction.execute (action.py lines 210-219)
    match st.last_game_state with
    | none => .error ("AttributeError: 'NoneType' object has no attribute 'screen_type'", st)
    | some g =>
      if g.screen_type != some ScreenType.COMBAT_REWARD then
        .error ("CombatRewardAction is only available on a Combat Reward Screen.", st)
      else
        match g.screen with
        | some (Screen.combatReward reward_list) =>
          match pyIndex (fun r r' => r == r') reward_list combat_reward with
          | none => .error ("Reward is not available", st)
          | some i =>
            if combat_reward.reward_type == RewardType.POTION && g.are_potions_full then
              .error ("Cannot choose potion reward with full potion slots.", st)
            else
              .ok (send_message st ("choose " ++ toString i))
        | _ => .error ("AttributeError: screen has no attribute 'rewards'", st)
  | .optionalCardSelectConfirm =>
    -- OptionalCardSelectConfirmAction.execute (action.py lines 235-242)
    match st.last_game_state with
    | none => .error ("AttributeError: 'NoneType' object has no attribute 'screen_type'", st)
    | some g =>
      if g.screen_type == some ScreenType.HAND_SELECT then
        .ok (add_action_to_queue st Action.proceed)
      else if g.screen_type == some ScreenType.GRID then
        match g.screen with
        | some (Screen.grid _ _ _ _ confirm_up _ _ _) =>
          if confirm_up then .ok (add_action_to_queue st Action.proceed)
          else .ok (add_action_to_queue st Action.stateAction)
        | _ => .error ("AttributeError: screen has no attribute 'confirm_up'", st)
      else
        .ok (add_action_to_queue st Action.stateAction)
  | .cardSelect cards =>
    -- CardSelectAction.execute (action.py lines 252-273)
    match st.last_game_state with
    | none => .error ("AttributeError: 'NoneType' object has no attribute 'screen_type'", st)
    | some g =>
      if !(g.screen_type == some ScreenType.HAND_SELECT
            || g.screen_type == some ScreenType.GRID) then
        .error ("CardSelectAction is only available on a Hand Select or Grid Select Screen.", st)
      else
        match g.screen with
        | some (Screen.grid scards selected_cards num_cards any_number _ _ _ _) =>
          cardSelectCore st cards scards selected_cards num_cards
            (g.screen_type == some ScreenType.GRID && !any_number)
        | some (Screen.handSelect scards selected_cards num_cards _) =>
          -- `screen.any_number` is only read when screen_type == GRID, so the
          -- hand-select variant never evaluates it (short-circuit `and`).
          cardSelectCore st cards scards selected_cards num_cards
            (g.screen_type == some ScreenType.GRID && false)
        | _ => .error ("AttributeError: screen has no attribute 'selected_cards'", st)

/-- `Coordinator.execute_next_action` (coordinator.py lines 98-104): pop the
queue head, then run its `execute`.  The pop survives a raise, so a raised
execution leaves the coordinator with only the head removed. -/
def execute_next_action (st : CoordinatorState) :
    Except (String × CoordinatorState) CoordinatorState :=
  match st.action_queue with
  | [] => .error ("IndexError: pop from an empty deque", st)
  | a :: rest => a.execute { st with action_queue := rest }

/-- `Coordinator.execute_next_action_if_ready` (coordinator.py lines
106-112): run the head only when the queue is non-empty and the head's
`can_be_executed` gate passes; otherwise do nothing. -/
def execute_next_action_if_ready (st : CoordinatorState) :
    Except (String × CoordinatorState) CoordinatorState :=
  match st.action_queue with
  | [] => .ok st
  | a :: _ => if a.can_be_executed st then execute_next_action st else .ok st

/-- The registered collaborator callbacks (coordinator.py lines 114-139).
`state_change_callback` receives `self.last_game_state` as stored (an
`Option Game` in this model). -/
structure CoordinatorCallbacks where
  state_change_callback : Option Game → Action
  out_of_game_callback : Action
  error_callback : String → Action

/-- One decoded message from Communication Mod: the fields read from
`json.loads(message)` in `receive_game_state_update`, with `game_state`
carrying the snapshot `Game.from_json` would build from it. -/
structure Message where
  error : Option String := none
  ready_for_command : Bool := false
  in_game : Bool := false
  game_state : Option Game := none

/-- `Coordinator.receive_game_state_update` (coordinator.py lines 152-185),
given the raw message already decoded into a `Message` (or `none` when
`get_next_raw_message` yields nothing).  Returns the new state and whether
a message was processed. -/
def receive_game_state_update (cb : CoordinatorCallbacks) (st : CoordinatorState)
    (message : Option Message) (perform_callbacks : Bool) :
    CoordinatorState × Bool :=
  match message with
  | none => (st, false)
  | some m =>
    let st1 := { st with last_error := m.error, game_is_ready := m.ready_for_command }
    let st2 :=
      if m.error.isNone then
        let s := { st1 with in_game := m.in_game }
        if m.in_game then { s with last_game_state := m.game_state } else s
      else st1
    let st3 :=
      if perform_callbacks then
        match st2.last_error with
        | some err =>
          -- self.action_queue.clear(); enqueue error_callback(last_error)
          add_action_to_queue { st2 with action_queue := [] } (cb.error_callback err)
        | none =>
          if st2.in_game then
            if st2.action_queue.length == 0 && perform_callbacks then
              add_action_to_queue st2 (cb.state_change_callback st2.last_game_state)
            else st2
          else if st2.stop_after_run then
            { st2 with action_queue := [] }
          else
            add_action_to_queue st2 cb.out_of_game_callback
      else st2
    (st3, true)

/-! ## Snapshot parsing: screen-type dispatch (game.py lines 90-92,
screen.py lines 334-353) -/

/-- The member map of the `ScreenType` enum (screen.py lines 9-23): member
name → member, in declaration order.  Python's `ScreenType[s]` is a lookup
in this mapping. -/
def screenTypeMembers : List (String × ScreenType) :=
  [("EVENT", ScreenType.EVENT), ("CHEST", ScreenType.CHEST),
   ("SHOP_ROOM", ScreenType.SHOP_ROOM), ("REST", ScreenType.REST),
   ("CARD_REWARD", ScreenType.CARD_REWARD),
   ("COMBAT_REWARD", ScreenType.COMBAT_REWARD), ("MAP", ScreenType.MAP),
   ("BOSS_REWARD", ScreenType.BOSS_REWARD),
   ("SHOP_SCREEN", ScreenType.SHOP_SCREEN), ("GRID", ScreenType.GRID),
   ("HAND_SELECT", ScreenType.HAND_SELECT),
   ("GAME_OVER", ScreenType.GAME_OVER), ("COMPLETE", ScreenType.COMPLETE),
   ("NONE", ScreenType.NONE)]

/-- The names of the `ScreenType` enum members; `ScreenType[s]`
(game.py line 91) succeeds exactly on these strings. -/
def recognizedScreenTypeNames : List String :=
  screenTypeMembers.map (fun p => p.1)

/-- The Python enum name lookup `ScreenType[s]`: `some` member on a
recognized name, `none` (a `KeyError` in the source) otherwise. -/
def screenTypeFromName (s : String) : Option ScreenType :=
  (screenTypeMembers.find? (fun p => p.1 == s)).map (fun p => p.2)

/-- The screen-type step of `Game.from_json` (game.py line 91):
`ScreenType[json_state.get("screen_type")]`.  An unrecognized screen-type
string raises `KeyError`, so parsing of that message fails. -/
def parse_screen_type (s : String) : Except String ScreenType :=
  match screenTypeFromName s with
  | some t => .ok t
  | none => .error ("KeyError: " ++ s)

/-- Tags naming the `Screen` subclasses of screen.py, used to record which
class's `from_json` parser the `SCREEN_CLASSES` dict selects. -/
inductive ScreenClass where
  | eventScreen | chestScreen | shopRoomScreen | restScreen
  | cardRewardScreen | combatRewardScreen | mapScreen | bossRewardScreen
  | shopScreen | gridSelectScreen | handSelectScreen | gameOverScreen
  | completeScreen | screenBase
deriving DecidableEq, Repr

/-- The `SCREEN_CLASSES` dict (screen.py lines 334-349): the closed dispatch
table from screen type to the subclass whose `from_json` builds the
variant.  `screen_from_json` (lines 352-353) is exactly
`SCREEN_CLASSES[screen_type].from_json(json_object)`. -/
def SCREEN_CLASSES : ScreenType → ScreenClass
  | .EVENT => .eventScreen
  | .CHEST => .chestScreen
  | .SHOP_ROOM => .shopRoomScreen
  | .REST => .restScreen
  | .CARD_REWARD => .cardRewardScreen
  | .COMBAT_REWARD => .combatRewardScreen
  | .MAP => .mapScreen
  | .BOSS_REWARD => .bossRewardScreen
  | .SHOP_SCREEN => .shopScreen
  | .GRID => .gridSelectScreen
  | .HAND_SELECT => .handSelectScreen
  | .GAME_OVER => .gameOverScreen
  | .COMPLETE => .completeScreen
  | .NONE => .screenBase

/-! ## Decision engine (ai/agent.py) -/

/-- The combat-reward iteration of `SimpleAgent.handle_screen` (agent.py
lines 156-164): walk the reward list in order; skip a potion reward when
potion storage is full and a card reward when `self.skipped_cards` is set;
return a `CombatRewardAction` for the first reward not skipped.  If every
reward was skipped, reset `skipped_cards` to `False` and proceed.  The
returned pair is (chosen action, `skipped_cards` after the call). -/
def combat_reward_loop (g : Game) (skipped_cards : Bool) :
    List CombatReward → Action × Bool
  | [] => (Action.proceed, false)
  | reward_item :: rest =>
    if reward_item.reward_type == RewardType.POTION && g.are_potions_full then
      combat_reward_loop g skipped_cards rest
    else if reward_item.reward_type == RewardType.CARD && skipped_cards then
      combat_reward_loop g skipped_cards rest
    else
      (Action.combatReward reward_item, skipped_cards)

/-- The `ScreenType.COMBAT_REWARD` branch of `SimpleAgent.handle_screen`
(agent.py lines 155-164): guarded by the dispatch on
`self.game.screen_type`, it iterates `self.game.screen.rewards` (an
`AttributeError` if the stored screen is not a combat-reward screen). -/
def handle_screen_combat_reward (g : Game) (skipped_cards : Bool) :
    Except String (Action × Bool) :=
  if g.screen_type == some ScreenType.COMBAT_REWARD then
    match g.screen with
    | some (Screen.combatReward rewards) =>
      .ok (combat_reward_loop g skipped_cards rewards)
    | _ => .error "AttributeError: screen has no attribute 'rewards'"
  else .error "handle_screen does not reach the combat-reward branch"

/-- `SimpleAgent.choose_rest_option` (agent.py lines 199-217).  The source
compares `current_hp < max_hp / 2` and `current_hp < max_hp * 0.9` with
Python float arithmetic; over the integer hp values these are exactly
`2 * current_hp < max_hp` and `10 * current_hp < 9 * max_hp` (division by
2 is exact in binary floating point, and scaling by 10 removes the
strictly-between-integers factor 0.9).  Reading `rest_options` off a
non-rest screen raises `AttributeError` in the source. -/
def choose_rest_option (g : Game) : Except String Action :=
  match g.screen with
  | some (Screen.rest has_rested rest_options) =>
    .ok
      (if rest_options.length > 0 && !has_rested then
        if rest_options.contains RestOption.REST
            && decide (2 * g.current_hp < g.max_hp) then
          Action.rest RestOption.REST
        else if rest_options.contains RestOption.REST
            && g.act != 1 && g.floor % 17 == 15
            && decide (10 * g.current_hp < 9 * g.max_hp) then
          Action.rest RestOption.REST
        else if rest_options.contains RestOption.SMITH then
          Action.rest RestOption.SMITH
        else if rest_options.contains RestOption.LIFT then
          Action.rest RestOption.LIFT
        else if rest_options.contains RestOption.DIG then
          Action.rest RestOption.DIG
        else if rest_options.contains RestOption.REST
            && decide (g.current_hp < g.max_hp) then
          Action.rest RestOption.REST
        else
          Action.choose 0 none
      else
        Action.proceed)
  | _ => .error "AttributeError: screen has no attribute 'rest_options'"

/-! ## Map route planning (agent.py `SimpleAgent.generate_map_route`,
lines 241-262) -/

/-- Lookup in the per-act reward dict `node_rewards[symbol]`.  The source
raises `KeyError` on a missing symbol; every lookup performed below is on a
symbol present in the table, so the default 0 is never produced. -/
def rewardOf (node_rewards : List (String × Int)) (s : String) : Int :=
  ((node_rewards.find? (fun p => p.1 == s)).map (fun p => p.2)).getD 0

/-- `min(node_rewards.values())`.  Python raises on an empty dict; the
tables in use are non-empty so the 0 default is never produced. -/
def minValues (node_rewards : List (String × Int)) : Int :=
  match node_rewards.map (fun p => p.2) with
  | [] => 0
  | v :: vs => vs.foldl min v

/-- `max(self.game.map.nodes.keys())`: the highest layer present.  (Python
raises on an empty map; layer 0 is always present in a real map, so the 0
default for the empty case is never produced.) -/
def maxLayer (nodes : List MapNode) : Nat :=
  nodes.foldl (fun acc n => max acc n.y) 0

/-- `self.game.map.nodes[y].values()` in insertion order: the nodes of
layer `y`, in the order they appear in the map's node list. -/
def layerNodes (nodes : List MapNode) (y : Nat) : List MapNode :=
  nodes.filter (fun n => n.y == y)

/-- Read `d[k]` from a layer table (a Python dict whose keys are the layer's
columns).  All reads below are of keys present in the table; the 0 default
models nothing and is never produced. -/
def tableGet (d : List (Int × Int)) (k : Int) : Int :=
  ((d.find? (fun p => p.1 == k)).map (fun p => p.2)).getD 0

/-- Write `d[k] = v` for a key already present in the table. -/
def tableSet (d : List (Int × Int)) (k : Int) (v : Int) : List (Int × Int) :=
  match d with
  | [] => []
  | (k', v') :: rest =>
    if k' == k then (k, v) :: rest else (k', v') :: tableSet rest k v

/-- The inner relaxation loop of `generate_map_route` (agent.py lines
253-257): for each child of `node`, if `best_node_reward + reward(child)`
beats the child's current entry in the next layer's tables, update its
best reward and record `node.x` as its parent. -/
def relaxChildren (node_rewards : List (String × Int)) (parent_x : Int)
    (best_node_reward : Int) :
    List MapNode → List (Int × Int) × List (Int × Int) →
      List (Int × Int) × List (Int × Int)
  | [], rp => rp
  | child :: cs, (r, p) =>
    let test_child_reward := best_node_reward + rewardOf node_rewards child.symbol
    if test_child_reward > tableGet r child.x then
      relaxChildren node_rewards parent_x best_node_reward cs
        (tableSet r child.x test_child_reward, tableSet p child.x parent_x)
    else
      relaxChildren node_rewards parent_x best_node_reward cs (r, p)

/-- One iteration of the forward pass (agent.py lines 248-257): seed layer
`y+1` with the sentinel `min_reward * 20` and parent `-1`, then relax every
edge out of layer `y`.  The source iterates `for x in best_rewards[y]`,
whose keys are exactly the layer-`y` columns in node order, and fetches
`get_node(x, y)`; iterating the layer's nodes directly is the same
traversal. -/
def dpLayerStep (node_rewards : List (String × Int)) (min_reward : Int)
    (nodes : List MapNode) (y : Nat) (prev : List (Int × Int)) :
    List (Int × Int) × List (Int × Int) :=
  let next := layerNodes nodes (y + 1)
  let r0 := next.map (fun n => (n.x, min_reward * 20))
  let p0 := next.map (fun n => (n.x, (-1 : Int)))
  (layerNodes nodes y).foldl
    (fun rp node =>
      relaxChildren node_rewards node.x (tableGet prev node.x) node.children rp)
    (r0, p0)

/-- The backtracking loop of `generate_map_route` (agent.py lines 258-261):
`best_path[y-1] = best_parents[y][best_path[y]]`, walking from the terminal
layer down to layer 0.  `acc` holds `best_path[y..map_height]` with
`best_path[y]` at its head. -/
def backtrackPath (parents : List (List (Int × Int))) : Nat → List Int → List Int
  | 0, acc => acc
  | Nat.succ y, acc =>
    let px := acc.headD 0
    backtrackPath parents y (tableGet (parents.getD (y + 1) []) px :: acc)

/-- `max(best_rewards[map_height].keys(), key=...)` (agent.py line 259):
the first key attaining the maximal value (Python's `max` keeps the current
maximum on ties). -/
def argmaxKey : List (Int × Int) → Int
  | [] => 0
  | kv :: rest => (rest.foldl (fun best p => if p.2 > best.2 then p else best) kv).1

/-- `SimpleAgent.generate_map_route` (agent.py lines 241-262).
`node_rewards` is the per-act table `self.priorities.MAP_NODE_PRIORITIES`
(content data external to the engine); `nodes` is the wired map.  Returns
the computed `self.map_route`: the planned column for each layer. -/
def generate_map_route (node_rewards : List (String × Int))
    (nodes : List MapNode) : List Int :=
  let best_rewards0 :=
    (layerNodes nodes 0).map (fun n => (n.x, rewardOf node_rewards n.symbol))
  let best_parents0 := (layerNodes nodes 0).map (fun n => (n.x, (0 : Int)))
  let min_reward := minValues node_rewards
  let map_height := maxLayer nodes
  let tables :=
    (List.range map_height).foldl
      (fun (tabs : List (List (Int × Int)) × List (List (Int × Int))) y =>
        let prev := tabs.1.getLastD []
        let rp := dpLayerStep node_rewards min_reward nodes y prev
        (tabs.1 ++ [rp.1], tabs.2 ++ [rp.2]))
      ([best_rewards0], [best_parents0])
  let terminal := tables.1.getLastD []
  let last_x := argmaxKey terminal
  backtrackPath tables.2 map_height [last_x]

/-! ## Predicates used by the verification -/

/-- Two monsters that agree on every field except their hit points
(`current_hp` and `max_hp`): the relation "the parse inputs differ only in
monster HP" induces on the parsed monsters. -/
def MonsterHpVariant (m1 m2 : Monster) : Prop :=
  m1.name = m2.name ∧ m1.monster_id = m2.monster_id ∧ m1.block = m2.block ∧
  m1.intent = m2.intent ∧ m1.half_dead = m2.half_dead ∧ m1.is_gone = m2.is_gone ∧
  m1.move_id = m2.move_id ∧ m1.last_move_id = m2.last_move_id ∧
  m1.second_last_move_id = m2.second_last_move_id ∧
  m1.move_base_damage = m2.move_base_damage ∧
  m1.move_adjusted_damage = m2.move_adjusted_damage ∧
  m1.move_hits = m2.move_hits ∧
  m1.powers = m2.powers ∧ m1.monster_index = m2.monster_index

/-! ## Concrete instances used by witnesses and counterexamples -/

/-- A card with the given name and unique instance identifier. -/
def mkCard (nm uuid : String) : Card :=
  { card_id := nm, name := nm, type := CardType.SKILL,
    rarity := CardRarity.COMMON, uuid := uuid }

/-- The two-layer map of the spec's DP test property: layer 0 holds A (x=0)
and B (x=1), layer 1 holds C (x=0); edges A→C and B→C. -/
def exampleNodeC : MapNode := MapNode.mk 0 1 "C" []

def exampleMapC1 : List MapNode :=
  [MapNode.mk 0 0 "A" [exampleNodeC], MapNode.mk 1 0 "B" [exampleNodeC],
   exampleNodeC]

/-- The spec's reward table {A:1, B:5, C:1}. -/
def exampleRewardsC1 : List (String × Int) := [("A", 1), ("B", 5), ("C", 1)]

/-- Concrete callbacks for the coordinator witnesses: the recovery action
embeds the error text so distinct errors give distinct actions. -/
def exampleCallbacks : CoordinatorCallbacks :=
  { state_change_callback := fun _ => Action.proceed,
    out_of_game_callback := Action.base "start" true,
    error_callback := fun err => Action.choose 0 (some err) }

/-- A coordinator with three pending actions (for the C2 witness). -/
def exampleCoordC2 : CoordinatorState :=
  { CoordinatorState.init with
    action_queue := [Action.proceed, Action.cancel, Action.endTurn] }

/-- An error-carrying message (for the C2 witness). -/
def exampleErrorMessage : Message :=
  { error := some "Invalid command", ready_for_command := true }

/-- A coordinator that is not ready but has a queued `StateAction`
(for the C3 counterexample). -/
def exampleCoordC3 : CoordinatorState :=
  { CoordinatorState.init with action_queue := [Action.stateAction] }

/-- Combat-reward items: a potion reward, a card reward and a gold reward. -/
def examplePotionReward : CombatReward :=
  { reward_type := RewardType.POTION,
    potion := some { potion_id := "Fire Potion", name := "Fire Potion" } }

def exampleCardReward : CombatReward := { reward_type := RewardType.CARD }

def exampleGoldReward : CombatReward := { reward_type := RewardType.GOLD, gold := 25 }

/-- A combat-reward snapshot with rewards [POTION, CARD, GOLD] and full
potion storage (no "Potion Slot" entry among the held potions). -/
def exampleGameC4 : Game :=
  { Game.init with
    screen_type := some ScreenType.COMBAT_REWARD,
    screen := some (Screen.combatReward
      [examplePotionReward, exampleCardReward, exampleGoldReward]),
    potions := [{ potion_id := "Block Potion", name := "Block Potion" },
                { potion_id := "Dexterity Potion", name := "Dexterity Potion" }] }

/-- A combat snapshot whose hand does not contain the card below
(no uuid matches), for the C5 witness. -/
def exampleGameC5 : Game :=
  { Game.init with hand := [mkCard "Strike" "uuid-1", mkCard "Defend" "uuid-2"] }

def exampleMissingCard : Card := mkCard "Bash" "uuid-99"

def exampleCoordC5 : CoordinatorState :=
  { CoordinatorState.init with
    last_game_state := some exampleGameC5,
    game_is_ready := true,
    action_queue :=
      [Action.playCard (some exampleMissingCard) (-1) none none, Action.endTurn] }

/-- Four grid cards and a selection of two of them (positions 1 and 3),
for the C6 witness. -/
def exampleGridCards : List Card :=
  [mkCard "Strike" "g1", mkCard "Defend" "g2", mkCard "Bash" "g3",
   mkCard "Anger" "g4"]

def exampleGameC6 : Game :=
  { Game.init with
    screen_type := some ScreenType.GRID,
    screen := some (Screen.grid exampleGridCards [] 2 false false false false false) }

def exampleCoordC6 : CoordinatorState :=
  { CoordinatorState.init with last_game_state := some exampleGameC6 }

def exampleChosenC6 : List Card := [mkCard "Defend" "g2", mkCard "Anger" "g4"]

/-- Two monsters, and hp-only variants of them, for the C7 witness. -/
def exampleMonsterA : Monster :=
  { name := "Jaw Worm", monster_id := "JawWorm", max_hp := 44, current_hp := 44,
    block := 0, intent := Intent.ATTACK, half_dead := false, is_gone := false }

def exampleMonsterB : Monster :=
  { name := "Cultist", monster_id := "Cultist", max_hp := 50, current_hp := 50,
    block := 0, intent := Intent.BUFF, half_dead := false, is_gone := false }

def exampleMonsterA' : Monster := { exampleMonsterA with current_hp := 30 }

def exampleMonsterB' : Monster := { exampleMonsterB with current_hp := 12 }

/-- A rest site already rested at, still listing REST among its options,
with the player below half hp (for the C8 counterexample). -/
def exampleGameC8rested : Game :=
  { Game.init with
    current_hp := 10, max_hp := 30,
    screen_type := some ScreenType.REST,
    screen := some (Screen.rest true
      [RestOption.REST, RestOption.SMITH, RestOption.LIFT, RestOption.DIG]) }

/-- The same rest site, not yet rested at (for the C8 witness). -/
def exampleGameC8 : Game :=
  { Game.init with
    current_hp := 10, max_hp := 30,
    screen_type := some ScreenType.REST,
    screen := some (Screen.rest false
      [RestOption.REST, RestOption.SMITH, RestOption.LIFT, RestOption.DIG]) }

/-! ## Helper lemmas -/

theorem are_potions_full_list_iff (l : List Potion) :
    are_potions_full_list l = true ↔ ∀ p ∈ l, p.potion_id ≠ "Potion Slot" := by
  induction l with
  | nil => simp [are_potions_full_list]
  | cons p ps ih =>
    simp only [are_potions_full_list, List.mem_cons]
    by_cases h : p.potion_id = "Potion Slot" <;> simp [h, ih]

theorem get_real_potions_list_eq_filter (l : List Potion) :
    get_real_potions_list l = l.filter (fun p => p.potion_id != "Potion Slot") := by
  induction l with
  | nil => rfl
  | cons p ps ih =>
    simp only [get_real_potions_list, List.filter_cons]
    by_cases h : p.potion_id = "Potion Slot" <;> simp [h, ih]

theorem pyIndex_eq_none (eq : α → α → Bool) (l : List α) (a : α)
    (h : ∀ b ∈ l, eq b a = false) : pyIndex eq l a = none := by
  induction l with
  | nil => rfl
  | cons b bs ih =>
    simp only [pyIndex, h b (List.mem_cons_self b bs), if_false]
    rw [ih (fun c hc => h c (List.mem_cons_of_mem b hc))]
    rfl

theorem pyIndex_get? (eq : α → α → Bool) (l : List α) (a : α) :
    ∀ i, pyIndex eq l a = some i → ∃ b, l.get? i = some b ∧ eq b a = true := by
  induction l with
  | nil => intro i h; simp [pyIndex] at h
  | cons b bs ih =>
    intro i h
    by_cases hb : eq b a = true
    · simp only [pyIndex, hb, if_true, Option.some.injEq] at h
      subst h
      exact ⟨b, rfl, hb⟩
    · simp only [pyIndex, hb, if_false] at h
      cases hp : pyIndex eq bs a with
      | none => rw [hp] at h; simp at h
      | some j =>
        rw [hp] at h
        simp at h
        obtain ⟨c, hc, hce⟩ := ih j hp
        refine ⟨c, ?_, hce⟩
        rw [← h]
        simpa using hc

theorem insertDesc_perm (a : Nat) (l : List Nat) :
    List.Perm (insertDesc a l) (a :: l) := by
  induction l with
  | nil => exact List.Perm.refl _
  | cons b bs ih =>
    simp only [insertDesc]
    by_cases h : b < a
    · rw [if_pos h]
    · rw [if_neg h]
      exact (ih.cons b).trans (List.Perm.swap a b bs)

theorem sortDesc_perm (l : List Nat) : List.Perm (sortDesc l) l := by
  induction l with
  | nil => exact List.Perm.refl _
  | cons a as ih => exact (insertDesc_perm a (sortDesc as)).trans (ih.cons a)

theorem sortDesc_length (l : List Nat) : (sortDesc l).length = l.length :=
  (sortDesc_perm l).length_eq

theorem pairwise_ge_insertDesc (a : Nat) (l : List Nat)
    (h : l.Pairwise (fun x y => x ≥ y)) :
    (insertDesc a l).Pairwise (fun x y => x ≥ y) := by
  induction l with
  | nil => simp [insertDesc]
  | cons b bs ih =>
    rcases List.pairwise_cons.mp h with ⟨hb, hbs⟩
    simp only [insertDesc]
    by_cases hba : b < a
    · rw [if_pos hba]
      refine List.pairwise_cons.mpr ⟨?_, h⟩
      intro x hx
      rcases List.mem_cons.mp hx with rfl | hx
      · exact Nat.le_of_lt hba
      · exact Nat.le_trans (hb x hx) (Nat.le_of_lt hba)
    · rw [if_neg hba]
      refine List.pairwise_cons.mpr ⟨?_, ih hbs⟩
      intro x hx
      rcases List.mem_cons.mp ((insertDesc_perm a bs).mem_iff.mp hx) with rfl | hx
      · exact Nat.le_of_not_lt hba
      · exact hb x hx

theorem sortDesc_pairwise_ge (l : List Nat) :
    (sortDesc l).Pairwise (fun x y => x ≥ y) := by
  induction l with
  | nil => simp [sortDesc]
  | cons a as ih => exact pairwise_ge_insertDesc a (sortDesc as) ih

theorem sortDesc_pairwise_gt (l : List Nat) (h : l.Nodup) :
    (sortDesc l).Pairwise (fun x y => x > y) := by
  have hnd : (sortDesc l).Nodup := (sortDesc_perm l).nodup_iff.mpr h
  have hge := sortDesc_pairwise_ge l
  refine (hnd.and hge).imp ?_
  rintro a b ⟨hne, hge'⟩
  exact Nat.lt_of_le_of_ne hge' (Ne.symm hne)

theorem collectIndices_ok (avail : List Card) (cs : List Card)
    (h : ∀ c ∈ cs, (pyIndex Card.pyEq avail c).isSome) :
    ∃ idxs : List Nat, collectIndices avail cs = .ok idxs ∧
      List.Forall₂ (fun c i => pyIndex Card.pyEq avail c = some i) cs idxs := by
  induction cs with
  | nil => exact ⟨[], rfl, List.Forall₂.nil⟩
  | cons c cs ih =>
    obtain ⟨i, hi⟩ := Option.isSome_iff_exists.mp (h c (List.mem_cons_self c cs))
    obtain ⟨idxs, hok, hall⟩ := ih (fun d hd => h d (List.mem_cons_of_mem c hd))
    refine ⟨i :: idxs, ?_, List.Forall₂.cons hi hall⟩
    simp only [collectIndices, hi, hok]

theorem collectIndices_mem (avail : List Card) (cs : List Card) (idxs : List Nat)
    (hall : List.Forall₂ (fun c i => pyIndex Card.pyEq avail c = some i) cs idxs) :
    ∀ i ∈ idxs, ∃ c ∈ cs, pyIndex Card.pyEq avail c = some i := by
  induction hall with
  | nil => intro i hi; simp at hi
  | cons hci _ ih =>
    intro i hi
    rcases List.mem_cons.mp hi with rfl | hi
    · exact ⟨_, List.mem_cons_self _ _, hci⟩
    · obtain ⟨c, hc, hcc⟩ := ih i hi
      exact ⟨c, List.mem_cons_of_mem _ hc, hcc⟩

/-- Distinct uuids give distinct first-match positions. -/
theorem pyIndex_uuid_inj (avail : List Card) (c c' : Card) (i : Nat)
    (h1 : pyIndex Card.pyEq avail c = some i)
    (h2 : pyIndex Card.pyEq avail c' = some i) : c.uuid = c'.uuid := by
  obtain ⟨b, hb, hbe⟩ := pyIndex_get? Card.pyEq avail c i h1
  obtain ⟨b', hb', hbe'⟩ := pyIndex_get? Card.pyEq avail c' i h2
  rw [hb] at hb'
  cases hb'
  have e1 : b.uuid = c.uuid := by simpa [Card.pyEq] using hbe
  have e2 : b.uuid = c'.uuid := by simpa [Card.pyEq] using hbe'
  rw [← e1, e2]

theorem collectIndices_nodup (avail : List Card) (cs : List Card) (idxs : List Nat)
    (hall : List.Forall₂ (fun c i => pyIndex Card.pyEq avail c = some i) cs idxs)
    (hdist : cs.Pairwise (fun c c' => c.uuid ≠ c'.uuid)) : idxs.Nodup := by
  induction hall with
  | nil => exact List.nodup_nil
  | @cons c i cs' idxs' hci htail ih =>
    rcases List.pairwise_cons.mp hdist with ⟨hc, hcs⟩
    refine List.nodup_cons.mpr ⟨?_, ih hcs⟩
    intro hi
    obtain ⟨c', hc', hcc⟩ := collectIndices_mem avail cs' idxs' htail i hi
    exact hc c' hc' (pyIndex_uuid_inj avail c c' i hci hcc)

/-! ## Claim theorems -/

/-- C10: `are_potions_full` returns `True` iff no held potion has
`potion_id = "Potion Slot"` (in particular on an empty potion list), and
`get_real_potions` returns exactly the order-preserving subsequence of
potions whose `potion_id` is not `"Potion Slot"`. -/
theorem c10_potion_slot_queries (g : Game) :
    (g.are_potions_full = true ↔ ∀ p ∈ g.potions, p.potion_id ≠ "Potion Slot") ∧
    (g.potions = [] → g.are_potions_full = true) ∧
    g.get_real_potions = g.potions.filter (fun p => p.potion_id != "Potion Slot") ∧
    List.Sublist g.get_real_potions g.potions := by
  refine ⟨are_potions_full_list_iff g.potions, ?_, get_real_potions_list_eq_filter g.potions, ?_⟩
  · intro h
    show are_potions_full_list g.potions = true
    rw [h]
    rfl
  · show List.Sublist (get_real_potions_list g.potions) g.potions
    rw [get_real_potions_list_eq_filter]
    exact List.filter_sublist _

/-- Witness for C10: a fresh game holds no potions, and its empty potion
list counts as full storage. -/
theorem c10_potion_slot_queries_witness : Game.init.are_potions_full = true :=
  (c10_potion_slot_queries Game.init).2.1 rfl

/-- C7: `Game.from_json` assigns the `i`-th parsed monster
`monster_index = i`, so the assignment list is `range (length)`; two parses
whose monsters differ only in hit points receive identical index
assignments. -/
theorem c7_monster_index_assignment :
    (∀ ms : List Monster,
      (assign_monster_indices ms).map (fun m => m.monster_index)
        = List.range ms.length) ∧
    (∀ ms1 ms2 : List Monster, List.Forall₂ MonsterHpVariant ms1 ms2 →
      (assign_monster_indices ms1).map (fun m => m.monster_index)
        = (assign_monster_indices ms2).map (fun m => m.monster_index)) := by
  have key : ∀ ms : List Monster,
      (assign_monster_indices ms).map (fun m => m.monster_index)
        = List.range ms.length := by
    intro ms
    rw [assign_monster_indices, List.map_map]
    have hfun : ((fun m => m.monster_index) ∘
        fun p : Nat × Monster => { p.2 with monster_index := p.1 }) = Prod.fst := rfl
    rw [hfun, List.enum_map_fst]
  exact ⟨key, fun ms1 ms2 h => by rw [key ms1, key ms2, h.length_eq]⟩

/-- Witness for C7: two monsters and their hp-only variants get the same
index assignment. -/
theorem c7_monster_index_assignment_witness :
    (assign_monster_indices [exampleMonsterA, exampleMonsterB]).map
        (fun m => m.monster_index)
      = (assign_monster_indices [exampleMonsterA', exampleMonsterB']).map
        (fun m => m.monster_index) :=
  c7_monster_index_assignment.2 _ _
    (List.Forall₂.cons
      ⟨rfl, rfl, rfl, rfl, rfl, rfl, rfl, rfl, rfl, rfl, rfl, rfl, rfl, rfl⟩
      (List.Forall₂.cons
        ⟨rfl, rfl, rfl, rfl, rfl, rfl, rfl, rfl, rfl, rfl, rfl, rfl, rfl, rfl⟩
        List.Forall₂.nil))

/-- C2: a received message carrying an error makes
`receive_game_state_update` discard the whole pending-action queue
(whatever its length) and enqueue exactly the one recovery action produced
by the error callback. -/
theorem c2_error_clears_pending_queue (cb : CoordinatorCallbacks)
    (st : CoordinatorState) (m : Message) (e : String)
    (he : m.error = some e) :
    (receive_game_state_update cb st (some m) true).1.action_queue
      = [cb.error_callback e] ∧
    (receive_game_state_update cb st (some m) true).2 = true := by
  constructor
  · simp [receive_game_state_update, he, add_action_to_queue]
  · rfl

/-- Witness for C2: an error received while three actions are queued leaves
exactly the single recovery action. -/
theorem c2_error_clears_pending_queue_witness :
    exampleCoordC2.action_queue.length = 3 ∧
    (receive_game_state_update exampleCallbacks exampleCoordC2
        (some exampleErrorMessage) true).1.action_queue
      = [Action.choose 0 (some "Invalid command")] :=
  ⟨rfl, (c2_error_clears_pending_queue exampleCallbacks exampleCoordC2
    exampleErrorMessage "Invalid command" rfl).1⟩

/-- C3 counterexample: a queued `StateAction` is executed — its command
line is placed on the output queue — while the ready gate is `false`, so a
command can be sent before the ready gate is observed. -/
theorem c3_state_action_bypasses_gate :
    exampleCoordC3.game_is_ready = false ∧
    execute_next_action_if_ready exampleCoordC3 =
      .ok { exampleCoordC3 with action_queue := [], output_queue := ["state"] } ∧
    ({ exampleCoordC3 with action_queue := [], output_queue := ["state"] } :
        CoordinatorState).output_queue.length
      = exampleCoordC3.output_queue.length + 1 :=
  ⟨rfl, rfl, rfl⟩

/-- C3 (amended): for every action that requires the ready gate — every
action except `StateAction`, whose constructor passes
`requires_game_ready=False` — `execute_next_action_if_ready` sends nothing
while the gate is unset; and sending any command line resets the gate, so
such an action's command is only emitted once the gate has been observed
set since the last send. -/
theorem c3_gate_respected_except_state_action :
    (∀ (st : CoordinatorState) (a : Action) (rest : List Action),
      st.action_queue = a :: rest → a.requires_game_ready = true →
      st.game_is_ready = false → execute_next_action_if_ready st = .ok st) ∧
    (∀ (st : CoordinatorState) (msg : String),
      (send_message st msg).game_is_ready = false) := by
  constructor
  · intro st a rest hq hr hg
    simp [execute_next_action_if_ready, hq, Action.can_be_executed, hr, hg]
  · intro st msg
    rfl

/-- Witness for C3 (amended): a queued `EndTurnAction` does not run while
the gate is unset. -/
theorem c3_gate_respected_witness :
    execute_next_action_if_ready
        { CoordinatorState.init with action_queue := [Action.endTurn] } =
      .ok { CoordinatorState.init with action_queue := [Action.endTurn] } :=
  c3_gate_respected_except_state_action.1 _ Action.endTurn [] rfl rfl rfl

/-- C5: `PlayCardAction.execute` with a held card whose uuid matches no
card in the current hand raises (`list.index` fails) before any line is
written: the popped-queue state is carried unchanged by the fault, and in
particular its output queue is untouched. -/
theorem c5_play_card_missing_uuid (st : CoordinatorState) (g : Game)
    (card : Card) (ci : Int) (tm : Option Monster) (ti : Option Int)
    (rest : List Action)
    (hq : st.action_queue = Action.playCard (some card) ci tm ti :: rest)
    (hlg : st.last_game_state = some g)
    (hmiss : ∀ c ∈ g.hand, c.uuid ≠ card.uuid) :
    execute_next_action st =
      .error ("ValueError: card is not in hand", { st with action_queue := rest }) ∧
    ({ st with action_queue := rest } : CoordinatorState).output_queue
      = st.output_queue := by
  have hnone : pyIndex Card.pyEq g.hand card = none :=
    pyIndex_eq_none _ _ _ (fun b hb => by simpa [Card.pyEq] using hmiss b hb)
  constructor
  · simp [execute_next_action, hq, Action.execute, hlg, hnone]
  · rfl

/-- Witness for C5: playing a card whose uuid is absent from the hand
faults with the queue popped and no output line. -/
theorem c5_play_card_missing_uuid_witness :
    execute_next_action exampleCoordC5 =
      .error ("ValueError: card is not in hand",
        { exampleCoordC5 with action_queue := [Action.endTurn] }) :=
  (c5_play_card_missing_uuid exampleCoordC5 exampleGameC5 exampleMissingCard
    (-1) none none [Action.endTurn] rfl rfl (by decide)).1

/-- C4 counterexample: on rewards [POTION, CARD, GOLD] with potion storage
full and cards already skipped, the engine does not proceed — the gold
reward is never skipped, so it returns a `CombatRewardAction` for the gold
item. -/
theorem c4_combat_reward_counterexample :
    exampleGameC4.are_potions_full = true ∧
    handle_screen_combat_reward exampleGameC4 true
      = .ok (Action.combatReward exampleGoldReward, true) ∧
    Action.combatReward exampleGoldReward ≠ Action.proceed :=
  ⟨rfl, rfl, by decide⟩

/-- C4 (amended): on a combat-reward screen [POTION, CARD, GOLD] with
potion storage full and cards previously skipped, the engine skips the
potion and card rewards and takes the gold reward (the first unskipped
one); the `skipped_cards` flag is left set.  It proceeds only when every
reward is skipped. -/
theorem c4_combat_reward_takes_first_unskipped (g : Game)
    (rp rc rg : CombatReward)
    (hst : g.screen_type = some ScreenType.COMBAT_REWARD)
    (hsc : g.screen = some (Screen.combatReward [rp, rc, rg]))
    (hp : rp.reward_type = RewardType.POTION)
    (hc : rc.reward_type = RewardType.CARD)
    (hg : rg.reward_type = RewardType.GOLD)
    (hfull : g.are_potions_full = true) :
    handle_screen_combat_reward g true = .ok (Action.combatReward rg, true) := by
  simp [handle_screen_combat_reward, hst, hsc, combat_reward_loop, hp, hc, hg, hfull]

/-- Witness for C4 (amended): the concrete [POTION, CARD, GOLD] screen
yields the gold reward. -/
theorem c4_combat_reward_takes_first_unskipped_witness :
    handle_screen_combat_reward exampleGameC4 true
      = .ok (Action.combatReward exampleGoldReward, true) :=
  c4_combat_reward_takes_first_unskipped exampleGameC4 examplePotionReward
    exampleCardReward exampleGoldReward rfl rfl rfl rfl rfl rfl

/-- C8 counterexample: on a rest screen that reports `has_rested`, the
engine proceeds even though REST is offered and the player is below half
hit points. -/
theorem c8_rest_site_counterexample :
    2 * exampleGameC8rested.current_hp < exampleGameC8rested.max_hp ∧
    choose_rest_option exampleGameC8rested = .ok Action.proceed ∧
    Action.proceed ≠ Action.rest RestOption.REST :=
  ⟨by decide, rfl, by decide⟩

/-- C8 (amended): on a rest screen not yet rested at, with REST among the
offered options and `current_hp < max_hp / 2`, the engine chooses REST —
regardless of which other options (SMITH/LIFT/DIG) are offered. -/
theorem c8_rest_when_low_hp (g : Game) (opts : List RestOption)
    (hsc : g.screen = some (Screen.rest false opts))
    (hmem : RestOption.REST ∈ opts)
    (hhp : 2 * g.current_hp < g.max_hp) :
    choose_rest_option g = .ok (Action.rest RestOption.REST) := by
  have hne : opts ≠ [] := List.ne_nil_of_mem hmem
  have hlen : 0 < opts.length := List.length_pos.mpr hne
  simp [choose_rest_option, hsc, hlen, hmem, hhp]

/-- Witness for C8 (amended): REST is chosen over SMITH/LIFT/DIG at
10/30 hp. -/
theorem c8_rest_when_low_hp_witness :
    choose_rest_option exampleGameC8 = .ok (Action.rest RestOption.REST) :=
  c8_rest_when_low_hp exampleGameC8
    [RestOption.REST, RestOption.SMITH, RestOption.LIFT, RestOption.DIG]
    rfl (by decide) (by decide)

/-- C9: screen-variant selection is a closed dispatch on the screen-type
string — `ScreenType[s]` succeeds exactly on the 14 enum member names and
otherwise raises (a fatal parse error for the message, never a default
screen) — and the `SCREEN_CLASSES` table maps every recognized screen type
to the parser of its own variant. -/
theorem c9_screen_dispatch_closed :
    (∀ s : String,
      (∃ t, parse_screen_type s = .ok t ∧ screenTypeFromName s = some t) ∨
      (parse_screen_type s = .error ("KeyError: " ++ s) ∧
        screenTypeFromName s = none)) ∧
    (∀ s : String,
      (∃ t, parse_screen_type s = .ok t) ↔ s ∈ recognizedScreenTypeNames) ∧
    (SCREEN_CLASSES ScreenType.EVENT = ScreenClass.eventScreen ∧
     SCREEN_CLASSES ScreenType.CHEST = ScreenClass.chestScreen ∧
     SCREEN_CLASSES ScreenType.SHOP_ROOM = ScreenClass.shopRoomScreen ∧
     SCREEN_CLASSES ScreenType.REST = ScreenClass.restScreen ∧
     SCREEN_CLASSES ScreenType.CARD_REWARD = ScreenClass.cardRewardScreen ∧
     SCREEN_CLASSES ScreenType.COMBAT_REWARD = ScreenClass.combatRewardScreen ∧
     SCREEN_CLASSES ScreenType.MAP = ScreenClass.mapScreen ∧
     SCREEN_CLASSES ScreenType.BOSS_REWARD = ScreenClass.bossRewardScreen ∧
     SCREEN_CLASSES ScreenType.SHOP_SCREEN = ScreenClass.shopScreen ∧
     SCREEN_CLASSES ScreenType.GRID = ScreenClass.gridSelectScreen ∧
     SCREEN_CLASSES ScreenType.HAND_SELECT = ScreenClass.handSelectScreen ∧
     SCREEN_CLASSES ScreenType.GAME_OVER = ScreenClass.gameOverScreen ∧
     SCREEN_CLASSES ScreenType.COMPLETE = ScreenClass.completeScreen ∧
     SCREEN_CLASSES ScreenType.NONE = ScreenClass.screenBase) := by
  refine ⟨?_, ?_, by decide⟩
  · intro s
    cases h : screenTypeFromName s with
    | some t => exact Or.inl ⟨t, by simp [parse_screen_type, h], rfl⟩
    | none => exact Or.inr ⟨by simp [parse_screen_type, h], rfl⟩
  · intro s
    constructor
    · rintro ⟨t, ht⟩
      cases h : screenTypeFromName s with
      | none => simp [parse_screen_type, h] at ht
      | some t' =>
        rw [screenTypeFromName, Option.map_eq_some'] at h
        obtain ⟨p, hp, hpt⟩ := h
        have hmem := List.mem_of_find?_eq_some hp
        have hkey : p.1 = s := by simpa using List.find?_some hp
        exact List.mem_map.mpr ⟨p, hmem, hkey⟩
    · intro hs
      obtain ⟨p, hpm, hps⟩ := List.mem_map.mp hs
      have hsome : (screenTypeMembers.find? (fun q => q.1 == s)).isSome := by
        exact List.find?_isSome.mpr ⟨p, hpm, by simp [hps]⟩
      obtain ⟨q, hq⟩ := Option.isSome_iff_exists.mp hsome
      refine ⟨q.2, ?_⟩
      simp [parse_screen_type, screenTypeFromName, hq]

/-- C1: on the spec's own DP test instance — reward table {A:1, B:5, C:1},
layer 0 = {A at x=0, B at x=1}, layer 1 = {C at x=0}, edges A→C and B→C —
`generate_map_route` does NOT select the maximal path (B then C, columns
[1, 0]).  The unreachable-column sentinel `min_reward * 20 = 20` exceeds
every achievable cumulative reward (max 6), so no relaxation fires, the
terminal column keeps parent `-1`, and the computed route is `[-1, 0]`,
whose layer-0 entry matches no node of the map. -/
theorem c1_map_route_sentinel_bug :
    generate_map_route exampleRewardsC1 exampleMapC1 = [-1, 0] ∧
    generate_map_route exampleRewardsC1 exampleMapC1 ≠ [1, 0] ∧
    minValues exampleRewardsC1 * 20 = 20 ∧
    (∀ n ∈ exampleMapC1, MapNode.x n ≠ -1) :=
  ⟨by decide, by decide, by decide, by decide⟩

/-- C6: executing `CardSelectAction` with `k` distinct cards that satisfy
the count preconditions writes no output line; it appends to the pending
queue exactly `k` single-choice descriptors whose indices are the cards'
positions in the screen's card list, sorted strictly descending, followed
by exactly one terminal `OptionalCardSelectConfirmAction`. -/
theorem c6_card_select_compound (st : CoordinatorState) (g : Game)
    (chosen scards sel : List Card) (nc : Int)
    (hlg : st.last_game_state = some g)
    (hscreen :
      (∃ anyNum cu fu ft fp, g.screen_type = some ScreenType.GRID ∧
        g.screen = some (Screen.grid scards sel nc anyNum cu fu ft fp) ∧
        (anyNum = false → (chosen.length : Int) = nc - sel.length)) ∨
      (∃ cpz, g.screen_type = some ScreenType.HAND_SELECT ∧
        g.screen = some (Screen.handSelect scards sel nc cpz)))
    (hcount : (chosen.length : Int) ≤ nc - sel.length)
    (hfound : ∀ c ∈ chosen, (pyIndex Card.pyEq scards c).isSome)
    (hdistinct : chosen.Pairwise (fun c c' => c.uuid ≠ c'.uuid)) :
    ∃ idxs : List Nat,
      collectIndices scards chosen = .ok idxs ∧
      List.Forall₂ (fun c i => pyIndex Card.pyEq scards c = some i) chosen idxs ∧
      Action.execute (Action.cardSelect chosen) st = .ok { st with
        action_queue := st.action_queue
          ++ (sortDesc idxs).map (fun i => Action.choose i none)
          ++ [Action.optionalCardSelectConfirm] } ∧
      (sortDesc idxs).length = chosen.length ∧
      (sortDesc idxs).Pairwise (fun i j => i > j) := by
  obtain ⟨idxs, hok, hall⟩ := collectIndices_ok scards chosen hfound
  have hnd : idxs.Nodup := collectIndices_nodup scards chosen idxs hall hdistinct
  have h2 : decide ((chosen.length : Int) > nc - (sel.length : Int)) = false :=
    decide_eq_false (not_lt.mpr hcount)
  refine ⟨idxs, hok, hall, ?_, ?_, sortDesc_pairwise_gt idxs hnd⟩
  · rcases hscreen with ⟨anyNum, cu, fu, ft, fp, hst, hsc, hfix⟩ | ⟨cpz, hst, hsc⟩
    · cases anyNum with
      | false =>
        have h1 : decide ((chosen.length : Int) ≠ nc - (sel.length : Int)) = false :=
          decide_eq_false (by simpa using hfix rfl)
        simp [Action.execute, hlg, hst, hsc, cardSelectCore, h1, h2, hok]
      | true =>
        simp [Action.execute, hlg, hst, hsc, cardSelectCore, h2, hok]
    · simp [Action.execute, hlg, hst, hsc, cardSelectCore, h2, hok]
  · rw [sortDesc_length, ← hall.length_eq]

/-- Witness for C6: selecting 2 of 4 grid cards (positions 1 and 3)
enqueues `choose 3`, `choose 1`, then the terminal confirm descriptor. -/
theorem c6_card_select_compound_witness :
    ∃ idxs : List Nat,
      collectIndices exampleGridCards exampleChosenC6 = .ok idxs ∧
      List.Forall₂ (fun c i => pyIndex Card.pyEq exampleGridCards c = some i)
        exampleChosenC6 idxs ∧
      Action.execute (Action.cardSelect exampleChosenC6) exampleCoordC6 =
        .ok { exampleCoordC6 with
          action_queue := exampleCoordC6.action_queue
            ++ (sortDesc idxs).map (fun i => Action.choose i none)
            ++ [Action.optionalCardSelectConfirm] } ∧
      (sortDesc idxs).length = exampleChosenC6.length ∧
      (sortDesc idxs).Pairwise (fun i j => i > j) :=
  c6_card_select_compound exampleCoordC6 exampleGameC6 exampleChosenC6
    exampleGridCards [] 2 rfl
    (Or.inl ⟨false, false, false, false, false, rfl, rfl, fun _ => by decide⟩)
    (by decide) (by decide) (by decide)

end Spirecomm
